import Mathlib

unseal Rat.add Rat.mul Rat.sub Rat.inv Rat.ofScientific

/-!
Shallow embedding of the intersection-observer polyfill core
(geometry, observation update, observer registry, controller scheduler),
translated from the JavaScript sources.  JS numbers are idealized as exact
rationals; the special values NaN / +Infinity / -Infinity produced by JS
division are modelled explicitly by the `JSNum` type.
-/

/-! ## Geometry (src/geometry.js) -/

/-- A client rectangle.  `createRectangle` keeps the source's derived-field
discipline (`bottom = top + height`, `right = left + width`). -/
structure Rect where
  left : ℚ
  top : ℚ
  width : ℚ
  height : ℚ
  bottom : ℚ
  right : ℚ
deriving DecidableEq

/-- `createRectangle(left, top, width, height)` from src/geometry.js. -/
def createRectangle (left top width height : ℚ) : Rect :=
  { left := left, top := top, width := width, height := height,
    bottom := top + height, right := left + width }

/-- `const emptyRect = createRectangle()` (all defaults are 0). -/
def emptyRect : Rect := createRectangle 0 0 0 0

/-- `getArea(rect) = rect.width * rect.height`. -/
def getArea (rect : Rect) : ℚ := rect.width * rect.height

/-- `isEmpty(rect) = rect.height === 0 && rect.width === 0`. -/
def isEmpty (rect : Rect) : Bool :=
  decide (rect.height = 0) && decide (rect.width = 0)

/-- `isEqual(first, second)`: compares top, left, right and bottom only. -/
def isEqual (first second : Rect) : Bool :=
  decide (first.top = second.top) && decide (first.left = second.left) &&
  decide (first.right = second.right) && decide (first.bottom = second.bottom)

/-! ## JS numeric special values

The ratio computation `getArea(i) / getArea(t) || 0` can produce NaN or
infinities in JavaScript; `JSNum` models a JS number as either a finite
rational or one of those special values. -/

/-- A JS number: finite value, an infinity, or NaN. -/
inductive JSNum where
  | fin (q : ℚ)
  | posInf
  | negInf
  | nan
deriving DecidableEq

/-- JS division `a / b` for finite operands: division by zero yields
NaN (for `0 / 0`) or a signed infinity. -/
def jsDiv (a b : ℚ) : JSNum :=
  if b = 0 then
    if a = 0 then .nan else if 0 < a then .posInf else .negInf
  else .fin (a / b)

/-- JS truthiness of a number: `0` and `NaN` are falsy. -/
def jsTruthy : JSNum → Bool
  | .fin q => decide (q ≠ 0)
  | .nan => false
  | _ => true

/-- The `x || 0` idiom applied to a number. -/
def jsOr0 (x : JSNum) : JSNum := if jsTruthy x then x else .fin 0

/-- JS `t <= r` where `t` is finite: any comparison with NaN is false. -/
def jsLe (t : ℚ) (r : JSNum) : Bool :=
  match r with
  | .fin q => decide (t ≤ q)
  | .posInf => true
  | .negInf => false
  | .nan => false

/-- JS strict equality `===` on numbers: `NaN === NaN` is false. -/
def jsStrictEq (a b : JSNum) : Bool :=
  match a, b with
  | .nan, _ => false
  | _, .nan => false
  | a, b => decide (a = b)

/-! ## Intersection computation (src/IntersectionObserverEntry.js) -/

/-- `computeIntersection(rootRect, targetRect)`: the clipped rectangle;
width or height may be negative when there is no overlap. -/
def computeIntersection (rootRect targetRect : Rect) : Rect :=
  createRectangle
    (max targetRect.left rootRect.left)
    (max targetRect.top rootRect.top)
    (min targetRect.right rootRect.right - max targetRect.left rootRect.left)
    (min targetRect.bottom rootRect.bottom - max targetRect.top rootRect.top)

/-- One strict ancestor of the target below the container, as observed by
`getIntersection`'s upward walk: whether its computed overflow style is not
"visible" (so it clips) and its own rectangle. -/
structure Ancestor where
  clips : Bool
  rect : Rect

/-- The upward walk of `getIntersection`: clip against every clipping
ancestor in order, then once more against the container's rectangle. -/
def getIntersection : List Ancestor → Rect → Rect → Rect
  | [], containterRect, intersecRect => computeIntersection intersecRect containterRect
  | parent :: rest, containterRect, intersecRect =>
      getIntersection rest containterRect
        (if parent.clips then computeIntersection intersecRect parent.rect else intersecRect)

/-- The record returned by `getIntersectionData`.  The source names the last
field `exists`; it is renamed `intersects` here (after the local variable
that computes it) because `exists` is reserved. -/
structure IntersectionData where
  rect : Rect
  ratio : JSNum
  intersects : Bool
deriving DecidableEq

/-- `getIntersectionData(container, containterRect, targetRect)`.  The DOM
queries `isDetached` and the ancestor walk are abstracted into the
`detached` flag and the `ancestors` list. -/
def getIntersectionData (detached : Bool) (ancestors : List Ancestor)
    (containterRect targetRect : Rect) : IntersectionData :=
  let intersecRect := if !detached then getIntersection ancestors containterRect targetRect
                      else emptyRect
  let intersects := !detached && decide (0 ≤ intersecRect.width) && decide (0 ≤ intersecRect.height)
  let intersecRatio := jsOr0 (jsDiv (getArea intersecRect) (getArea targetRect))
  { rect := intersecRect, ratio := intersecRatio, intersects := intersects }

/-! ## Observer threshold scan (src/_IntersectionObserver.js) -/

/-- `getThresholdGreaterThan(ratio)`: linear scan that stops at the first
stored threshold not `<=` the ratio, returning the index reached. -/
def getThresholdGreaterThan (thresholds : List ℚ) (ratio : JSNum) : ℕ :=
  match thresholds with
  | [] => 0
  | t :: rest => if jsLe t ratio then getThresholdGreaterThan rest ratio + 1 else 0

/-! ## Entry and observation update (src/IntersectionObserverEntry.js) -/

/-- An `IntersectionObserverEntry` snapshot.  Targets are identified by
natural numbers; `time` is the `now()` timestamp. -/
structure IntersectionObserverEntry where
  target : ℕ
  boundingClientRect : Rect
  intersectionRect : Rect
  intersectionRatio : JSNum
  rootBounds : Rect
  time : ℚ
deriving DecidableEq

/-- The mutable per-target state of an `IntersectionObservation`. -/
structure ObservationState where
  target : ℕ
  prevTargetRect : Rect
  prevThreshold : ℕ
  prevRatio : JSNum
deriving DecidableEq

/-- `new IntersectionObservation(target, observer)`. -/
def newObservation (target : ℕ) : ObservationState :=
  { target := target, prevTargetRect := emptyRect, prevThreshold := 0, prevRatio := .fin 0 }

/-- The change record returned by `updateIntersection`. -/
structure Changes where
  ratioChanged : Bool
  thresholdChanged : Bool
  targetRectChanged : Bool
deriving DecidableEq

/-- Result of one `updateIntersection` call: the updated cached state, the
entry queued on the owning observer (if any), and the change record. -/
structure UpdateResult where
  state : ObservationState
  entry : Option IntersectionObserverEntry
  changes : Changes
deriving DecidableEq

/-- `updateIntersection(root, rootRect)` of `IntersectionObservation`.
The host queries are abstracted: `detached`/`ancestors` feed
`getIntersectionData`, `targetRect` is the result of
`getRectangle(this.target)` and `tNow` the value of `now()`. -/
def updateIntersection (thresholds : List ℚ) (st : ObservationState)
    (detached : Bool) (ancestors : List Ancestor)
    (rootRect targetRect : Rect) (tNow : ℚ) : UpdateResult :=
  let intersection := getIntersectionData detached ancestors rootRect targetRect
  let ratioChanged := !jsStrictEq intersection.ratio st.prevRatio
  let targetRectChanged := !isEqual targetRect st.prevTargetRect
  -- `threshold = +intersection.exists`, overwritten by the scan when the
  -- intersection exists and the target rectangle is not empty.
  let threshold : ℕ :=
    if intersection.intersects && !isEmpty targetRect then
      getThresholdGreaterThan thresholds intersection.ratio
    else if intersection.intersects then 1 else 0
  let thresholdChanged := threshold != st.prevThreshold
  -- Cached properties are updated unconditionally, `prevRatio` from the raw
  -- ratio, before the no-intersection forcing below.
  let st' : ObservationState :=
    { target := st.target, prevTargetRect := targetRect,
      prevThreshold := threshold, prevRatio := intersection.ratio }
  -- `if (!intersection.exists) { intersection.ratio = 0; intersection.rect = emptyRect; }`
  let entryRatio := if intersection.intersects then intersection.ratio else .fin 0
  let entryRect := if intersection.intersects then intersection.rect else emptyRect
  let entry : Option IntersectionObserverEntry :=
    if thresholdChanged then
      some { target := st.target, boundingClientRect := targetRect,
             intersectionRect := entryRect, intersectionRatio := entryRatio,
             rootBounds := rootRect, time := tNow }
    else none
  { state := st', entry := entry,
    changes := { ratioChanged := ratioChanged, thresholdChanged := thresholdChanged,
                 targetRectChanged := targetRectChanged } }

/-! ## Threshold parsing (src/_IntersectionObserver.js, `parseThresholds`)

`parseThresholds` sorts with `Array.prototype.sort()` **without a
comparator**, which per ECMAScript compares the `toString` images of the
elements.  To embed that faithfully we model `Number::toString` (base 10)
under the exact-rational idealization of JS numbers: every JS double has a
terminating decimal expansion, rendered with trailing zeros stripped and
with the exponential form used outside the `10^-6 .. 10^21` window. -/

/-- A string of `n` zero characters. -/
def natZeros (n : ℕ) : String := String.mk (List.replicate n '0')

/-- Smallest `k` (below the fuel bound) such that `q * 10^k` is an
integer; `none` when the decimal expansion does not terminate within the
bound (which cannot happen for the image of a JS double). -/
def findPow10 (q : ℚ) : ℕ → ℕ → Option ℕ
  | 0, _ => none
  | fuel + 1, k => if (q * 10 ^ k).den = 1 then some k else findPow10 q fuel (k + 1)

/-- Strips trailing decimal zeros from `m`, returning the stripped number
and how many zeros were removed. -/
def stripZeros : ℕ → ℕ → ℕ × ℕ
  | 0, m => (m, 0)
  | fuel + 1, m =>
      if m ≠ 0 ∧ m % 10 = 0 then
        let p := stripZeros fuel (m / 10)
        (p.1, p.2 + 1)
      else (m, 0)

/-- ECMAScript `Number::toString` for a positive rational `q`: writes
`q = m * 10 ^ (-k)` with `m` not divisible by 10 and renders per the
integer / fixed-point / exponential cases of the specification. -/
def posToString (q : ℚ) : String :=
  match findPow10 q 400 0 with
  | none => "?"
  | some k0 =>
      let m0 := (q * 10 ^ k0).num.toNat
      let p := stripZeros 400 m0
      let m := p.1
      let k : ℤ := (k0 : ℤ) - (p.2 : ℤ)
      let s := Nat.repr m
      let d := s.length
      if k ≤ 0 then
        if (d : ℤ) - k ≤ 21 then s ++ natZeros (-k).toNat
        else (if d = 1 then s else s.take 1 ++ "." ++ s.drop 1) ++ "e+" ++
          Nat.repr ((d : ℤ) - k - 1).toNat
      else if k < (d : ℤ) then s.take (d - k.toNat) ++ "." ++ s.drop (d - k.toNat)
      else if k.toNat - d < 6 then "0." ++ natZeros (k.toNat - d) ++ s
      else (if d = 1 then s else s.take 1 ++ "." ++ s.drop 1) ++ "e-" ++
        Nat.repr (k.toNat - d + 1)

/-- `String(q)` for a finite JS number idealized as a rational. -/
def jsNumToString (q : ℚ) : String :=
  if q = 0 then "0" else if q < 0 then "-" ++ posToString (-q) else posToString q

/-- ECMAScript string `<`: lexicographic comparison of code units. -/
def charListLt : List Char → List Char → Bool
  | [], [] => false
  | [], _ :: _ => true
  | _ :: _, [] => false
  | a :: as, b :: bs =>
      if a.toNat < b.toNat then true
      else if b.toNat < a.toNat then false
      else charListLt as bs

/-- The default `Array.prototype.sort` order: `a` may precede `b` when the
string image of `a` is not lexicographically greater than that of `b`. -/
def jsDefaultSortLe (a b : ℚ) : Bool :=
  !charListLt (jsNumToString b).data (jsNumToString a).data

/-- Inserts an element into a list sorted by `le`. -/
def sortInsert (le : ℚ → ℚ → Bool) (a : ℚ) : List ℚ → List ℚ
  | [] => [a]
  | b :: l => if le a b then a :: b :: l else b :: sortInsert le a l

/-- An `Array.prototype.sort` model: the specification only fixes the
result (sorted with respect to the comparator), realized here by insertion
sort. -/
def jsSort (le : ℚ → ℚ → Bool) : List ℚ → List ℚ
  | [] => []
  | a :: l => sortInsert le a (jsSort le l)

/-- The `threshold` option: a single (already numerically coerced) value or
an array of values; `none` marks an element whose numeric coercion is
non-finite. -/
inductive ThresholdsInput where
  | num (q : ℚ)
  | arr (vs : List (Option ℚ))

/-- `parseThresholds(thresholds)`: wraps a single value, defaults an empty
array to `[0]`, validates each element (non-finite → TypeError, outside
`[0,1]` → RangeError) and sorts the result with the default (string-image)
`Array.prototype.sort`. -/
def parseThresholds (thresholds : ThresholdsInput) : Except String (List ℚ) := do
  let result : List (Option ℚ) :=
    match thresholds with
    | .num q => [some q]
    | .arr [] => [some 0]
    | .arr vs => vs
  let mapped ← result.mapM (fun threshold => do
    match threshold with
    | none => Except.error "The provided double value is non-finite."
    | some t =>
        if t < 0 ∨ 1 < t then Except.error "Threshold values must be between 0 and 1."
        else Except.ok t)
  return jsSort jsDefaultSortLe mapped

/-! ## Margin parsing (src/_IntersectionObserver.js, `parseMargins`) -/

/-- Membership of the common JS `\s` whitespace characters. -/
def isWsChar (c : Char) : Bool :=
  c == ' ' || c == '\t' || c == '\n' || c == '\r' || c == '\x0b' || c == '\x0c'

/-- Splits a character list at every single whitespace character. -/
def splitOnWs : List Char → List Char → List String
  | [], acc => [String.mk acc.reverse]
  | c :: rest, acc =>
      if isWsChar c then String.mk acc.reverse :: splitOnWs rest []
      else splitOnWs rest (c :: acc)

/-- Collapses the empty fields produced by consecutive whitespace
characters, keeping a leading or trailing empty field. -/
def squeezeEmpties : List String → List String
  | [] => []
  | [x] => [x]
  | x :: y :: rest =>
      if x = "" then squeezeEmpties (y :: rest) else x :: squeezeEmpties (y :: rest)

/-- `str.split(/\s+/)`: fields between maximal whitespace runs, with an
empty field kept at a whitespace boundary of the string. -/
def jsSplitWs (s : String) : List String :=
  match splitOnWs s.data [] with
  | [] => [""]
  | x :: xs => x :: squeezeEmpties xs

/-- `margins[i] || fallback`: an out-of-range index (undefined) and the
empty string are both falsy. -/
def jsOrStr (x : Option String) (fallback : String) : String :=
  match x with
  | some s => if s = "" then fallback else s
  | none => fallback

/-- Whether a character list matches the numeric part `-?\d*\.?\d+` of the
margin token regular expression. -/
def matchesNumber (cs : List Char) : Bool :=
  let cs := if cs.head? = some '-' then cs.tail else cs
  decide (cs ≠ []) && cs.all (fun c => c.isDigit || c == '.') &&
  decide (cs.count '.' ≤ 1) && (cs.getLast?.elim false Char.isDigit)

/-- Numeric value of a digit list forming `\d*\.?\d+` (integer and
fractional parts around an optional dot). -/
def parseDecimal (cs : List Char) : ℚ :=
  let neg := cs.head? = some '-'
  let cs := if neg then cs.tail else cs
  let intPart := cs.takeWhile (fun c => c != '.')
  let fracPart := (cs.dropWhile (fun c => c != '.')).tail
  let digitsToNat : List Char → ℕ := fun ds => ds.foldl (fun n c => n * 10 + (c.toNat - 48)) 0
  let v : ℚ := (digitsToNat intPart : ℚ) + (digitsToNat fracPart : ℚ) / 10 ^ fracPart.length
  if neg then -v else v

/-- One resolved margin component: the numeric value (already divided by
100 for percentages) and whether it was given in pixels. -/
structure MarginComp where
  value : ℚ
  pixels : Bool
deriving DecidableEq

/-- The two failure modes of `parseMargins`. -/
inductive MarginError where
  | tooMany
  | format
deriving DecidableEq

/-- Applies `/^(-?\d*\.?\d+)(px|%)$/` to one token and resolves it; `none`
when the token does not match (so `parseFloat` yields NaN and the source
throws the format error). -/
def parseMarginToken (token : String) : Option MarginComp :=
  let cs := token.data
  if cs ≠ [] ∧ cs.drop (cs.length - 2) = ['p', 'x'] then
    let numPart := cs.take (cs.length - 2)
    if matchesNumber numPart then some { value := parseDecimal numPart, pixels := true }
    else none
  else if cs.getLast? = some '%' then
    let numPart := cs.take (cs.length - 1)
    if matchesNumber numPart then some { value := parseDecimal numPart / 100, pixels := false }
    else none
  else none

/-- `parseMargins(margins)`: splits on whitespace runs, rejects more than
four fields, fills the missing components by the CSS shorthand rule, keeps
the joined canonical string and parses each token. -/
def parseMargins (margins : String) : Except MarginError (String × List MarginComp) := do
  let ms := jsSplitWs margins
  if ms.length > 4 then Except.error .tooMany
  else
    let m0 := jsOrStr ms[0]? "0px"
    let m1 := jsOrStr ms[1]? m0
    let m2 := jsOrStr ms[2]? m0
    let m3 := jsOrStr ms[3]? m1
    let rawData := String.intercalate " " [m0, m1, m2, m3]
    let parsedData ← [m0, m1, m2, m3].mapM (fun token =>
      match parseMarginToken token with
      | none => Except.error MarginError.format
      | some comp => Except.ok comp)
    return (rawData, parsedData)

/-! ## Controller (src/IntersectionObserverController.js)

The controller state as a record.  Host listener installation is modelled
by boolean flags; the debounced fallback restart by `repeatPending`; the
pending animation-frame request by `isUpdateScheduled`.  Whether the host
supports `MutationObserver` is the external flag `ms` passed to the
operations that branch on it. -/

structure CtrlState where
  idleTimeout : ℚ
  cycleStartTime : ℚ
  isUpdateScheduled : Bool
  repeatCycle : Bool
  hoverInitiated : Bool
  mutationsObserving : Bool
  isListening : Bool
  trackHovers : Bool
  repeatPending : Bool
  observers : List ℕ
deriving DecidableEq

/-- `new IntersectionObserverController()` with the default arguments
(`idleTimeout = 50`, `trackHovers = false`). -/
def defaultController : CtrlState :=
  { idleTimeout := 50, cycleStartTime := -1, isUpdateScheduled := false,
    repeatCycle := false, hoverInitiated := false, mutationsObserving := false,
    isListening := false, trackHovers := false, repeatPending := false,
    observers := [] }

/-- The `set idleTimeout(value)` accessor of the controller: a plain
assignment with no validation. -/
def ctrlSetIdleTimeout (c : CtrlState) (value : ℚ) : CtrlState :=
  { c with idleTimeout := value }

/-- `scheduleUpdate()` called without a timestamp: requests one
animation-frame invocation unless one is already pending. -/
def scheduleUpdateExternal (c : CtrlState) : CtrlState :=
  if !c.isUpdateScheduled then { c with isUpdateScheduled := true } else c

/-- `startUpdateCycle()`: stamps the cycle start and schedules a tick. -/
def startUpdateCycle (tNow : ℚ) (c : CtrlState) : CtrlState :=
  scheduleUpdateExternal { c with cycleStartTime := tNow }

/-- `_onCycleEnded()`: marks the cycle not running; in fallback mode the
start time is reset to 0 and the debounced restart is armed. -/
def onCycleEnded (c : CtrlState) : CtrlState :=
  let c := { c with cycleStartTime := -1 }
  if c.repeatCycle then { c with cycleStartTime := 0, repeatPending := true } else c

/-- `scheduleUpdate(timestamp)` invoked as an animation-frame callback:
`hasChanges` is the value `_updateObservers()` returned and `tNow` the
value `now()` yields during this invocation. -/
def frameTick (c : CtrlState) (tNow : ℚ) (hasChanges : Bool) : CtrlState :=
  let c := { c with isUpdateScheduled := false }
  if c.cycleStartTime = -1 then c
  else if hasChanges then startUpdateCycle tNow c
  else if !decide (tNow - c.cycleStartTime > c.idleTimeout) then scheduleUpdateExternal c
  else onCycleEnded c

/-- `_addHoverListener()`. -/
def addHoverListener (c : CtrlState) : CtrlState :=
  if c.hoverInitiated then c else { c with hoverInitiated := true }

/-- `_removeHoverListener()`. -/
def removeHoverListener (c : CtrlState) : CtrlState :=
  if !c.hoverInitiated then c else { c with hoverInitiated := false }

/-- `_initListeners()`: installs the host listeners; without
`MutationObserver` support it enables the perpetual-repeat fallback and
immediately starts a cycle. -/
def initListeners (ms : Bool) (tNow : ℚ) (c : CtrlState) : CtrlState :=
  if c.isListening then c
  else
    let c := { c with isListening := true }
    let c := if c.trackHovers then addHoverListener c else c
    if !ms then startUpdateCycle tNow { c with repeatCycle := true }
    else { c with mutationsObserving := true }

/-- `_removeListeners()`. -/
def removeListeners (ms : Bool) (c : CtrlState) : CtrlState :=
  if !c.isListening then c
  else
    let c := removeHoverListener c
    let c := if !ms then { c with repeatCycle := false }
             else { c with mutationsObserving := false }
    { c with isListening := false }

/-- `isConnected(observer)`. -/
def ctrlIsConnected (c : CtrlState) (oid : ℕ) : Bool := c.observers.contains oid

/-- `connect(observer)`: pushes the observer if absent and lazily installs
the listeners. -/
def ctrlConnect (ms : Bool) (tNow : ℚ) (c : CtrlState) (oid : ℕ) : CtrlState :=
  let c := if !ctrlIsConnected c oid then { c with observers := c.observers ++ [oid] } else c
  if !c.isListening then initListeners ms tNow c else c

/-- `disconnect(observer)`: splices the observer out and removes the
listeners when no observer remains. -/
def ctrlDisconnect (ms : Bool) (c : CtrlState) (oid : ℕ) : CtrlState :=
  let c := { c with observers := c.observers.erase oid }
  if c.observers.isEmpty && c.isListening then removeListeners ms c else c

/-! ## The public wrapper's static `idleTimeout` setter (IntersectionObserver.js) -/

/-- A JS value, as far as `typeof`-based validation needs. -/
inductive JSVal where
  | num (q : ℚ)
  | str (s : String)
  | bool (b : Bool)
  | null
  | undef
deriving DecidableEq

/-- The `typeof` operator. -/
def jsTypeOf : JSVal → String
  | .num _ => "number"
  | .str _ => "string"
  | .bool _ => "boolean"
  | .null => "object"
  | .undef => "undefined"

/-- ECMAScript ToNumber on a string (decimal literals only; `none` models
NaN). -/
def jsStringToNumber (s : String) : Option ℚ :=
  let cs := (s.data.dropWhile isWsChar).reverse.dropWhile isWsChar |>.reverse
  if cs = [] then some 0
  else if matchesNumber cs then some (parseDecimal cs) else none

/-- JS `<` applied to a string left operand and a number right operand:
the string is converted with ToNumber, and a NaN comparison is false. -/
def jsLtStrNum (s : String) (n : ℚ) : Bool :=
  match jsStringToNumber s with
  | some q => decide (q < n)
  | none => false

/-- JS numeric coercion of the values the setter stores (only numbers
reach the assignment). -/
def jsToNum : JSVal → ℚ
  | .num q => q
  | _ => 0

/-- `static set idleTimeout(value)` of the public wrapper: rejects
non-numbers, then evaluates the source's `typeof value < 0` guard (the
string `typeof value` compared against the number 0) and stores the value
on the controller. -/
def staticSetIdleTimeout (c : CtrlState) (value : JSVal) : Except String CtrlState :=
  if jsTypeOf value ≠ "number" then
    Except.error "type of idleTimeout value must be a number."
  else if jsLtStrNum (jsTypeOf value) 0 then
    Except.error "idleTimeout value must be greater than 0."
  else Except.ok (ctrlSetIdleTimeout c (jsToNum value))

/-! ## Observer registry and whole-system operations
(src/_IntersectionObserver.js `observe` / `unobserve` / `disconnect`)

Observers are identified by natural numbers and kept in a function from
ids to observer states; the controller's `_observers` list holds the ids
of the connected observers. -/

/-- The mutable state of one internal `IntersectionObserver`: the
target → observation registry (`_targets`) and the pending-entry queue
(`_quedEntries`). -/
structure ObserverState where
  targets : List (ℕ × ObservationState)
  quedEntries : List IntersectionObserverEntry
deriving DecidableEq

/-- `new _IntersectionObserver(...)`: empty registry, empty queue. -/
def newObserver : ObserverState := { targets := [], quedEntries := [] }

/-- `Map.prototype.has`. -/
def jsMapHas (m : List (ℕ × ObservationState)) (k : ℕ) : Bool := m.any (fun p => p.1 == k)

/-- `Map.prototype.set`: replaces the value under an existing key,
otherwise appends. -/
def jsMapSet (m : List (ℕ × ObservationState)) (k : ℕ) (v : ObservationState) :
    List (ℕ × ObservationState) :=
  if jsMapHas m k then m.map (fun p => if p.1 == k then (k, v) else p) else m ++ [(k, v)]

/-- `Map.prototype.delete`. -/
def jsMapDelete (m : List (ℕ × ObservationState)) (k : ℕ) : List (ℕ × ObservationState) :=
  m.filter (fun p => p.1 != k)

/-- The whole modelled system: the shared controller plus every observer's
state, indexed by observer id. -/
structure System where
  ctrl : CtrlState
  obs : ℕ → ObserverState

/-- The initial system: a fresh controller, every observer unconnected and
empty. -/
def initialSystem : System := { ctrl := defaultController, obs := fun _ => newObserver }

/-- Replaces the state of one observer. -/
def setObs (s : System) (oid : ℕ) (o : ObserverState) : System :=
  { s with obs := fun i => if i = oid then o else s.obs i }

/-- `observe(target)` on observer `oid`: no-op for a registered target,
otherwise registers a fresh observation, connects the observer if needed
and starts an update cycle. -/
def observeStep (ms : Bool) (tNow : ℚ) (s : System) (oid target : ℕ) : System :=
  let o := s.obs oid
  if jsMapHas o.targets target then s
  else
    let s := setObs s oid { o with targets := jsMapSet o.targets target (newObservation target) }
    let c := if !ctrlIsConnected s.ctrl oid then ctrlConnect ms tNow s.ctrl oid else s.ctrl
    { s with ctrl := startUpdateCycle tNow c }

/-- `disconnect()` on observer `oid`: clears the registry and detaches
from the controller.  The pending-entry queue is untouched, as in the
source. -/
def observerDisconnect (ms : Bool) (s : System) (oid : ℕ) : System :=
  let s := setObs s oid { s.obs oid with targets := [] }
  { s with ctrl := ctrlDisconnect ms s.ctrl oid }

/-- `unobserve(target)` on observer `oid`: deletes the observation if
present; a now-empty registry triggers `disconnect()`. -/
def unobserveStep (ms : Bool) (s : System) (oid target : ℕ) : System :=
  let o := s.obs oid
  let s := if jsMapHas o.targets target
           then setObs s oid { o with targets := jsMapDelete o.targets target }
           else s
  if (s.obs oid).targets.isEmpty then observerDisconnect ms s oid else s

/-- One public lifecycle operation. -/
inductive Op where
  | observe (oid target : ℕ) (tNow : ℚ)
  | unobserve (oid target : ℕ)
  | disconnect (oid : ℕ)

/-- Interprets one operation. -/
def stepOp (ms : Bool) (s : System) : Op → System
  | .observe oid target tNow => observeStep ms tNow s oid target
  | .unobserve oid target => unobserveStep ms s oid target
  | .disconnect oid => observerDisconnect ms s oid

/-- Runs a sequence of operations from a starting state. -/
def runOps (ms : Bool) (s : System) : List Op → System
  | [] => s
  | op :: rest => runOps ms (stepOp ms s op) rest

/-! ## Helper lemmas -/

/-- Characterization of the `area(i) / area(t) || 0` ratio computation:
never NaN; with a zero divisor the result is 0, `+Infinity` or
`-Infinity` according to the sign of the dividend; with a nonzero divisor
it is the exact quotient. -/
theorem jsRatio_spec (a b : ℚ) :
    jsOr0 (jsDiv a b) ≠ JSNum.nan ∧
    (b = 0 → (a = 0 → jsOr0 (jsDiv a b) = JSNum.fin 0) ∧
             (0 < a → jsOr0 (jsDiv a b) = JSNum.posInf) ∧
             (a < 0 → jsOr0 (jsDiv a b) = JSNum.negInf)) ∧
    (b ≠ 0 → jsOr0 (jsDiv a b) = JSNum.fin (a / b)) := by
  refine ⟨?_, ?_, ?_⟩
  · by_cases hb : b = 0
    · by_cases ha : a = 0
      · simp [jsDiv, jsOr0, jsTruthy, ha, hb]
      · rcases lt_trichotomy a 0 with h | h | h
        · simp [jsDiv, jsOr0, jsTruthy, ha, hb, not_lt.mpr h.le]
        · exact absurd h ha
        · simp [jsDiv, jsOr0, jsTruthy, ha, hb, h]
    · by_cases hq : a / b = 0
      · simp [jsDiv, jsOr0, jsTruthy, hb, hq]
      · simp [jsDiv, jsOr0, jsTruthy, hb, hq]
  · intro hb
    subst hb
    refine ⟨?_, ?_, ?_⟩
    · intro ha
      subst ha
      simp [jsDiv, jsOr0, jsTruthy]
    · intro ha
      simp [jsDiv, jsOr0, jsTruthy, ne_of_gt ha, ha]
    · intro ha
      simp [jsDiv, jsOr0, jsTruthy, ne_of_lt ha, not_lt.mpr ha.le]
  · intro hb
    by_cases hq : a / b = 0
    · simp [jsDiv, hb, jsOr0, jsTruthy, hq]
    · simp [jsDiv, hb, jsOr0, jsTruthy, hq]

/-- The `ratio` field of `getIntersectionData` is exactly the guarded
quotient of the areas of its own `rect` field and the target rectangle. -/
theorem getIntersectionData_ratio (detached : Bool) (ancestors : List Ancestor)
    (containterRect targetRect : Rect) :
    (getIntersectionData detached ancestors containterRect targetRect).ratio =
      jsOr0 (jsDiv (getArea (getIntersectionData detached ancestors containterRect targetRect).rect)
        (getArea targetRect)) := rfl

/-! ## Claims -/

/-- Claim C1 (code_bug evidence): `parseThresholds` sorts with the default
(string-image) `Array.prototype.sort`, so the accepted input
`[0.5, 0.0000001]` is stored as `[0.5, 0.0000001]` — not in ascending
numeric order, contradicting the function's own documentation ("An array
of thresholds in ascending order"). -/
theorem c1_default_sort_not_ascending :
    parseThresholds (.arr [some (1/2), some (1/10000000)]) =
      Except.ok [(1 : ℚ)/2, 1/10000000] ∧
    ¬ List.Sorted (· ≤ ·) [(1 : ℚ)/2, 1/10000000] := by
  constructor
  · rfl
  · decide

/-- Claim C3 (counterexample): a zero-area target disjoint from the root
along both axes produces the ratio `+Infinity`, not `0`: the claim "a
zero-area target yields ratio 0" fails at this input. -/
theorem c3_zero_area_target_infinite_ratio :
    getArea (createRectangle 10 0 0 5) = 0 ∧
    (getIntersectionData false [] (createRectangle 0 10 5 2) (createRectangle 10 0 0 5)).ratio =
      JSNum.posInf := by
  constructor
  · rfl
  · rfl

/-- Claim C3 (amended): the computed ratio is never NaN; for a zero-area
target it equals 0 when the computed intersection rectangle's area is also
0, `+Infinity` when that area is positive and `-Infinity` when it is
negative; for a non-zero-area target it is exactly
`area(intersectionRect) / area(targetRect)`. -/
theorem c3_ratio_characterization (detached : Bool) (ancestors : List Ancestor)
    (containterRect targetRect : Rect) :
    (getIntersectionData detached ancestors containterRect targetRect).ratio ≠ JSNum.nan ∧
    (getArea targetRect = 0 →
      (getArea (getIntersectionData detached ancestors containterRect targetRect).rect = 0 →
        (getIntersectionData detached ancestors containterRect targetRect).ratio = JSNum.fin 0) ∧
      (0 < getArea (getIntersectionData detached ancestors containterRect targetRect).rect →
        (getIntersectionData detached ancestors containterRect targetRect).ratio = JSNum.posInf) ∧
      (getArea (getIntersectionData detached ancestors containterRect targetRect).rect < 0 →
        (getIntersectionData detached ancestors containterRect targetRect).ratio =
          JSNum.negInf)) ∧
    (getArea targetRect ≠ 0 →
      (getIntersectionData detached ancestors containterRect targetRect).ratio =
        JSNum.fin (getArea (getIntersectionData detached ancestors containterRect targetRect).rect /
          getArea targetRect)) := by
  rw [getIntersectionData_ratio]
  exact jsRatio_spec _ _

/-- Witness for the amended C3 theorem: a zero-area target whose
(non-existent) intersection rectangle has negative area gives
`-Infinity`. -/
theorem c3_ratio_characterization_witness :
    (getIntersectionData false [] (createRectangle 0 0 10 10) (createRectangle 20 2 0 5)).ratio =
      JSNum.negInf :=
  ((c3_ratio_characterization false [] (createRectangle 0 0 10 10)
    (createRectangle 20 2 0 5)).2.1 (by decide)).2.2 (by decide)

/-- Claim C9 (code_bug evidence): the wrapper's static `idleTimeout`
setter evaluates `typeof value < 0` — the string `"number"` compared with
`0`, which is always false — so the negative value `-5` is accepted and
stored, leaving the controller with `idleTimeout = -5 < 0`. -/
theorem c9_negative_idle_timeout_accepted :
    staticSetIdleTimeout defaultController (.num (-5)) =
      Except.ok { defaultController with idleTimeout := -5 } ∧
    ¬ (0 : ℚ) ≤ (-5 : ℚ) := by
  constructor
  · rfl
  · decide

/-- Claim C10 (confirmed): with the target and root disjoint along the
horizontal axis only (positive target area), `getIntersectionData`
computes the strictly negative ratio `-2`; `updateIntersection` caches
that raw value as `prevRatio` while the emitted entry's ratio is forced
to `0` — so the cached previous ratio can fall outside `[0, 1]`. -/
theorem c10_negative_prev_ratio :
    (getIntersectionData false [] (createRectangle 0 0 10 10)
      (createRectangle 20 2 5 5)).ratio = JSNum.fin (-2) ∧
    (0 : ℚ) < getArea (createRectangle 20 2 5 5) ∧
    (updateIntersection [0]
      { target := 7, prevTargetRect := emptyRect, prevThreshold := 1, prevRatio := .fin 1 }
      false [] (createRectangle 0 0 10 10) (createRectangle 20 2 5 5) 3).state.prevRatio =
      JSNum.fin (-2) ∧
    ((updateIntersection [0]
      { target := 7, prevTargetRect := emptyRect, prevThreshold := 1, prevRatio := .fin 1 }
      false [] (createRectangle 0 0 10 10) (createRectangle 20 2 5 5) 3).entry.map
        (fun e => e.intersectionRatio)) = some (JSNum.fin 0) := by
  refine ⟨rfl, by decide, rfl, rfl⟩

/-- Claim C4 (counterexample): at the exact boundary where the elapsed
time equals `idleTimeout` (50 elapsed, timeout 50), a changeless frame
tick still schedules one more tick instead of ending the cycle, because
the source tests `now() - cycleStartTime > idleTimeout`. -/
theorem c4_boundary_tick_scheduled :
    (frameTick { defaultController with cycleStartTime := 0 } 50 false).isUpdateScheduled = true ∧
    (frameTick { defaultController with cycleStartTime := 0 } 50 false).cycleStartTime = 0 ∧
    ¬ ((50 : ℚ) - 0 < 50) := by
  refine ⟨rfl, rfl, by decide⟩

/-- Claim C4 (amended): in a changeless frame tick of a running cycle,
one more tick is scheduled if and only if the elapsed time since
`cycleStartTime` does not exceed `idleTimeout` (inclusive comparison);
when the elapsed time strictly exceeds it, the cycle is ended. -/
theorem c4_idle_window_inclusive (c : CtrlState) (tNow : ℚ) (h : c.cycleStartTime ≠ -1) :
    ((frameTick c tNow false).isUpdateScheduled = true ↔
      tNow - c.cycleStartTime ≤ c.idleTimeout) ∧
    (c.idleTimeout < tNow - c.cycleStartTime →
      frameTick c tNow false = onCycleEnded { c with isUpdateScheduled := false }) := by
  by_cases hle : tNow - c.cycleStartTime ≤ c.idleTimeout
  · have hgt : ¬ (tNow - c.cycleStartTime > c.idleTimeout) := not_lt.mpr hle
    constructor
    · simp [frameTick, h, hgt, scheduleUpdateExternal, hle]
    · intro hlt
      exact absurd hlt (not_lt.mpr hle)
  · have hgt : tNow - c.cycleStartTime > c.idleTimeout := not_le.mp hle
    constructor
    · simp [frameTick, h, hgt, onCycleEnded, hle]
      split <;> simp
    · intro _
      simp [frameTick, h, hgt]

/-- Witness for the amended C4 theorem: with the cycle started at 0,
timeout 50 and a changeless tick at 60, the cycle ends. -/
theorem c4_idle_window_inclusive_witness :
    frameTick { defaultController with cycleStartTime := 0 } 60 false =
      onCycleEnded { { defaultController with cycleStartTime := 0 } with
        isUpdateScheduled := false } :=
  (c4_idle_window_inclusive { defaultController with cycleStartTime := 0 } 60
    (by decide)).2 (by decide)

/-- Claim C5 (confirmed): `updateIntersection` constructs and queues an
entry exactly when the newly cached threshold bucket differs from the
previous one; changes of ratio or rectangle alone queue nothing. -/
theorem c5_entry_iff_bucket_change (thresholds : List ℚ) (st : ObservationState)
    (detached : Bool) (ancestors : List Ancestor) (rootRect targetRect : Rect) (tNow : ℚ) :
    (updateIntersection thresholds st detached ancestors rootRect targetRect tNow).entry.isSome =
      ((updateIntersection thresholds st detached ancestors rootRect targetRect
        tNow).state.prevThreshold != st.prevThreshold) := by
  have isSomeIf : ∀ (c : Bool) (e : IntersectionObserverEntry),
      (if c = true then some e else none).isSome = c := by
    intro c e
    cases c <;> simp
  simp only [updateIntersection]
  exact isSomeIf _ _

/-- Claim C6 (confirmed): margin parsing follows the CSS 1/2/3/4-value
shorthand expansion, and any input splitting into more than four
whitespace-separated fields is rejected. -/
theorem c6_margin_shorthand :
    parseMargins "5px" = Except.ok ("5px 5px 5px 5px",
      [⟨5, true⟩, ⟨5, true⟩, ⟨5, true⟩, ⟨5, true⟩]) ∧
    parseMargins "5px 10%" = Except.ok ("5px 10% 5px 10%",
      [⟨5, true⟩, ⟨1/10, false⟩, ⟨5, true⟩, ⟨1/10, false⟩]) ∧
    ∀ s : String, 4 < (jsSplitWs s).length → parseMargins s = Except.error .tooMany := by
  refine ⟨by rfl, by rfl, ?_⟩
  intro s h
  simp only [parseMargins]
  rw [if_pos h]

/-- Witness for the token-count part of the C6 theorem. -/
theorem c6_margin_shorthand_witness :
    parseMargins "1px 2px 3px 4px 5px" = Except.error .tooMany :=
  c6_margin_shorthand.2.2 "1px 2px 3px 4px 5px" (by decide)

/-- The threshold scan is monotone in the ratio. -/
theorem gtgtMono (t : List ℚ) (r1 r2 : ℚ) (h : r1 ≤ r2) :
    getThresholdGreaterThan t (.fin r1) ≤ getThresholdGreaterThan t (.fin r2) := by
  induction t with
  | nil => simp [getThresholdGreaterThan]
  | cons a rest ih =>
      by_cases h1 : a ≤ r1
      · have h2 : a ≤ r2 := h1.trans h
        simp only [getThresholdGreaterThan, jsLe, h1, h2, decide_eq_true_eq, if_pos]
        exact Nat.add_le_add_right ih 1
      · simp [getThresholdGreaterThan, jsLe, h1]

/-- The threshold scan never exceeds the list length. -/
theorem gtgtLeLength (t : List ℚ) (r : JSNum) : getThresholdGreaterThan t r ≤ t.length := by
  induction t with
  | nil => simp [getThresholdGreaterThan]
  | cons a rest ih =>
      simp only [getThresholdGreaterThan, List.length_cons]
      split
      · exact Nat.add_le_add_right ih 1
      · exact Nat.zero_le _

/-- On a sorted list the threshold scan counts the elements `≤` ratio. -/
theorem gtgtCount (t : List ℚ) (r : ℚ) (hs : List.Sorted (· ≤ ·) t) :
    getThresholdGreaterThan t (.fin r) = t.countP (fun x => decide (x ≤ r)) := by
  induction t with
  | nil => simp [getThresholdGreaterThan]
  | cons a rest ih =>
      rw [List.sorted_cons] at hs
      obtain ⟨ha, hrest⟩ := hs
      by_cases h1 : a ≤ r
      · simp [getThresholdGreaterThan, jsLe, h1, List.countP_cons, ih hrest]
      · have hc : rest.countP (fun x => decide (x ≤ r)) = 0 := by
          rw [List.countP_eq_zero]
          intro x hx
          simp only [decide_eq_true_eq]
          exact fun hxr => h1 ((ha x hx).trans hxr)
        simp [getThresholdGreaterThan, jsLe, h1, List.countP_cons, hc]

/-- Claim C7 (counterexample): construction accepts `[0.5, 0.0000001]`
and stores it in that (numerically descending) order, and on that
constructed observer the scan at ratio `0.3` returns bucket 0 while the
count of stored thresholds `≤ 0.3` is 1 — so the claimed equality fails
for a constructed Observer. -/
theorem c7_count_fails_unsorted :
    parseThresholds (.arr [some (1/2), some (1/10000000)]) =
      Except.ok [(1 : ℚ)/2, 1/10000000] ∧
    getThresholdGreaterThan [(1 : ℚ)/2, 1/10000000] (.fin (3/10)) = 0 ∧
    ([(1 : ℚ)/2, 1/10000000].countP fun x => decide (x ≤ 3/10)) = 1 := by
  refine ⟨by rfl, by decide, by decide⟩

/-- Claim C7 (amended): the threshold scan is monotone non-decreasing in
the ratio and bounded by the number of thresholds for every stored list;
it returns the count of stored thresholds `≤` the ratio whenever the
stored list is numerically sorted (the intended outcome of construction,
which the default-sort slip recorded at C1 can fail to deliver). -/
theorem c7_bucket_scan_properties (t : List ℚ) (r1 r2 : ℚ) (h12 : r1 ≤ r2) :
    getThresholdGreaterThan t (.fin r1) ≤ getThresholdGreaterThan t (.fin r2) ∧
    getThresholdGreaterThan t (.fin r1) ≤ t.length ∧
    (List.Sorted (· ≤ ·) t →
      getThresholdGreaterThan t (.fin r1) = t.countP fun x => decide (x ≤ r1)) :=
  ⟨gtgtMono t r1 r2 h12, gtgtLeLength t _, fun hs => gtgtCount t r1 hs⟩

/-- Witness for the C7 theorem on the sorted list `[0, 1/2]`. -/
theorem c7_bucket_scan_properties_witness :
    getThresholdGreaterThan [0, (1:ℚ)/2] (.fin (1/4)) =
      ([0, (1:ℚ)/2].countP fun x => decide (x ≤ 1/4)) :=
  (c7_bucket_scan_properties [0, (1:ℚ)/2] (1/4) 1 (by decide)).2.2 (by decide)

/-! ## Lemmas about the controller's observer list -/

/-- `scheduleUpdate()` never touches the observer list. -/
theorem scheduleUpdateExternal_observers (c : CtrlState) :
    (scheduleUpdateExternal c).observers = c.observers := by
  simp [scheduleUpdateExternal, apply_ite CtrlState.observers]

/-- `startUpdateCycle()` never touches the observer list. -/
theorem startUpdateCycle_observers (t : ℚ) (c : CtrlState) :
    (startUpdateCycle t c).observers = c.observers := by
  simp [startUpdateCycle, scheduleUpdateExternal_observers]

/-- `_initListeners()` never touches the observer list. -/
theorem initListeners_observers (ms : Bool) (t : ℚ) (c : CtrlState) :
    (initListeners ms t c).observers = c.observers := by
  simp [initListeners, addHoverListener, startUpdateCycle, scheduleUpdateExternal,
    apply_ite CtrlState.observers]

/-- `_removeListeners()` never touches the observer list. -/
theorem removeListeners_observers (ms : Bool) (c : CtrlState) :
    (removeListeners ms c).observers = c.observers := by
  simp [removeListeners, removeHoverListener, apply_ite CtrlState.observers]

/-- `connect(observer)` appends the observer exactly when it was absent. -/
theorem ctrlConnect_observers (ms : Bool) (t : ℚ) (c : CtrlState) (oid : ℕ) :
    (ctrlConnect ms t c oid).observers =
      if ctrlIsConnected c oid then c.observers else c.observers ++ [oid] := by
  by_cases hc : ctrlIsConnected c oid = true
  · simp [ctrlConnect, hc, apply_ite CtrlState.observers, initListeners_observers]
  · have hc' : ctrlIsConnected c oid = false := by simpa using hc
    simp [ctrlConnect, hc', apply_ite CtrlState.observers, initListeners_observers]

/-- `disconnect(observer)` erases the observer from the list. -/
theorem ctrlDisconnect_observers (ms : Bool) (c : CtrlState) (oid : ℕ) :
    (ctrlDisconnect ms c oid).observers = c.observers.erase oid := by
  simp [ctrlDisconnect, apply_ite CtrlState.observers, removeListeners_observers]

/-- `setObs` leaves the controller untouched. -/
theorem setObs_ctrl (s : System) (oid : ℕ) (o : ObserverState) :
    (setObs s oid o).ctrl = s.ctrl := rfl

/-- Reading back `setObs`. -/
theorem setObs_obs (s : System) (oid : ℕ) (o : ObserverState) (i : ℕ) :
    (setObs s oid o).obs i = if i = oid then o else s.obs i := rfl

/-- `Map.prototype.set` never produces an empty map. -/
theorem jsMapSet_ne_nil (m : List (ℕ × ObservationState)) (k : ℕ) (v : ObservationState) :
    jsMapSet m k v ≠ [] := by
  simp only [jsMapSet]
  split
  · rename_i hhas
    cases m with
    | nil => simp [jsMapHas] at hhas
    | cons a l => simp
  · simp

/-! ## The connected-observer invariant -/

/-- Invariant: the controller's observer list has no duplicates, and every
connected observer has a non-empty registry. -/
def SysInv (s : System) : Prop :=
  s.ctrl.observers.Nodup ∧ ∀ i ∈ s.ctrl.observers, (s.obs i).targets ≠ []

/-- The initial system satisfies the invariant. -/
theorem sysInv_initial : SysInv initialSystem := by
  simp [SysInv, initialSystem, defaultController]

/-- `observe` preserves the invariant. -/
theorem sysInv_observe (ms : Bool) (tNow : ℚ) (s : System) (oid target : ℕ)
    (h : SysInv s) : SysInv (observeStep ms tNow s oid target) := by
  obtain ⟨hnd, hne⟩ := h
  by_cases hhas : jsMapHas (s.obs oid).targets target = true
  · simpa [observeStep, hhas] using ⟨hnd, hne⟩
  · have hobs : (observeStep ms tNow s oid target).ctrl.observers =
        if ctrlIsConnected s.ctrl oid then s.ctrl.observers
        else s.ctrl.observers ++ [oid] := by
      simp [observeStep, hhas, startUpdateCycle_observers, ctrlConnect_observers,
        setObs_ctrl, apply_ite CtrlState.observers]
      split <;> simp_all [setObs_ctrl]
    have hobsv : ∀ i, (observeStep ms tNow s oid target).obs i =
        if i = oid then { s.obs oid with
          targets := jsMapSet (s.obs oid).targets target (newObservation target) }
        else s.obs i := by
      intro i
      simp [observeStep, hhas, setObs_obs]
    constructor
    · rw [hobs]
      split
      · exact hnd
      · rename_i hconn
        have : oid ∉ s.ctrl.observers := by
          simpa [ctrlIsConnected] using hconn
        simp [List.nodup_append, hnd, this]
    · intro i hi
      rw [hobsv i]
      by_cases hioid : i = oid
      · simp [hioid, jsMapSet_ne_nil]
      · rw [if_neg hioid]
        apply hne
        rw [hobs] at hi
        rcases em (ctrlIsConnected s.ctrl oid = true) with hc | hc
        · rwa [if_pos hc] at hi
        · rw [if_neg hc] at hi
          rcases List.mem_append.mp hi with h' | h'
          · exact h'
          · simp at h'
            exact absurd h' hioid

/-- `disconnect` (the observer method) establishes the invariant: the
disconnected observer leaves the list, and the others keep non-empty
registries. -/
theorem sysInv_disconnect (ms : Bool) (s : System) (oid : ℕ)
    (hnd : s.ctrl.observers.Nodup)
    (hne : ∀ i ∈ s.ctrl.observers, i ≠ oid → (s.obs i).targets ≠ []) :
    SysInv (observerDisconnect ms s oid) := by
  have hobs : (observerDisconnect ms s oid).ctrl.observers = s.ctrl.observers.erase oid := by
    simp [observerDisconnect, ctrlDisconnect_observers, setObs_ctrl]
  constructor
  · rw [hobs]
    exact hnd.erase oid
  · intro i hi
    rw [hobs] at hi
    have hi' : i ≠ oid ∧ i ∈ s.ctrl.observers := (hnd.mem_erase_iff).mp hi
    have : (observerDisconnect ms s oid).obs i = s.obs i := by
      simp [observerDisconnect, setObs_obs, hi'.1]
    rw [this]
    exact hne i hi'.2 hi'.1

/-- `unobserve` preserves the invariant. -/
theorem sysInv_unobserve (ms : Bool) (s : System) (oid target : ℕ)
    (h : SysInv s) : SysInv (unobserveStep ms s oid target) := by
  obtain ⟨hnd, hne⟩ := h
  simp only [unobserveStep]
  set s1 := if jsMapHas (s.obs oid).targets target = true
            then setObs s oid { s.obs oid with
              targets := jsMapDelete (s.obs oid).targets target }
            else s with hs1
  have hs1ctrl : s1.ctrl = s.ctrl := by
    rw [hs1]
    split <;> simp [setObs_ctrl]
  have hs1obs : ∀ i, i ≠ oid → s1.obs i = s.obs i := by
    intro i hi
    rw [hs1]
    split <;> simp [setObs_obs, hi]
  split
  · -- registry became empty: full disconnect
    refine sysInv_disconnect ms s1 oid (by rw [hs1ctrl]; exact hnd) ?_
    intro i hi hioid
    rw [hs1ctrl] at hi
    rw [hs1obs i hioid]
    exact hne i hi
  · -- registry still non-empty
    rename_i hnonempty
    refine ⟨by rw [hs1ctrl]; exact hnd, ?_⟩
    intro i hi
    rw [hs1ctrl] at hi
    by_cases hioid : i = oid
    · subst hioid
      intro hnil
      exact hnonempty (by rw [hnil]; rfl)
    · rw [hs1obs i hioid]
      exact hne i hi

/-- Every lifecycle operation preserves the invariant. -/
theorem sysInv_run (ms : Bool) (ops : List Op) (s : System) (h : SysInv s) :
    SysInv (runOps ms s ops) := by
  induction ops generalizing s with
  | nil => exact h
  | cons op rest ih =>
      apply ih
      cases op with
      | observe oid target tNow => exact sysInv_observe ms tNow s oid target h
      | unobserve oid target => exact sysInv_unobserve ms s oid target h
      | disconnect oid => exact sysInv_disconnect ms s oid h.1 (fun i hi _ => h.2 i hi)

/-- Claim C8 (confirmed): after any sequence of observe / unobserve /
disconnect operations, every observer in the controller's connected list
has a non-empty target registry. -/
theorem c8_connected_observers_nonempty (ms : Bool) (ops : List Op) :
    ∀ i ∈ (runOps ms initialSystem ops).ctrl.observers,
      ((runOps ms initialSystem ops).obs i).targets ≠ [] :=
  (sysInv_run ms ops initialSystem sysInv_initial).2

/-- Witness for the C8 theorem after a single `observe`. -/
theorem c8_connected_observers_nonempty_witness :
    ((runOps true initialSystem [.observe 0 5 0]).obs 0).targets ≠ [] :=
  c8_connected_observers_nonempty true [.observe 0 5 0] 0 (by decide)

/-- A concrete queued entry. -/
def sampleEntry : IntersectionObserverEntry :=
  { target := 5, boundingClientRect := emptyRect, intersectionRect := emptyRect,
    intersectionRatio := .fin 0, rootBounds := emptyRect, time := 0 }

/-- A system with one connected observer that watches target 5 and has one
pending queued entry. -/
def c2System : System :=
  { ctrl := { defaultController with observers := [0], isListening := true },
    obs := fun _ => { targets := [(5, newObservation 5)], quedEntries := [sampleEntry] } }

/-- Claim C2 (counterexample): removing the last target empties the
registry and detaches the observer, but the pending-entry queue is NOT
cleared — `disconnect()` only clears `_targets`, never `_quedEntries`. -/
theorem c2_queue_not_cleared :
    ((unobserveStep true c2System 0 5).obs 0).targets = [] ∧
    ctrlIsConnected (unobserveStep true c2System 0 5).ctrl 0 = false ∧
    ((unobserveStep true c2System 0 5).obs 0).quedEntries ≠ [] := by
  refine ⟨by decide, by decide, by decide⟩

/-- Claim C2 (amended): when `unobserve` empties the registry, the
observer's registry is cleared and it is detached from the controller,
while the pending-entry queue is left unchanged. -/
theorem c2_unobserve_empty_disconnects (ms : Bool) (s : System) (oid target : ℕ)
    (hnd : s.ctrl.observers.Nodup)
    (h : (if jsMapHas (s.obs oid).targets target = true
          then jsMapDelete (s.obs oid).targets target
          else (s.obs oid).targets) = []) :
    ((unobserveStep ms s oid target).obs oid).targets = [] ∧
    oid ∉ (unobserveStep ms s oid target).ctrl.observers ∧
    ((unobserveStep ms s oid target).obs oid).quedEntries = (s.obs oid).quedEntries := by
  simp only [unobserveStep]
  set s1 := if jsMapHas (s.obs oid).targets target = true
            then setObs s oid { s.obs oid with
              targets := jsMapDelete (s.obs oid).targets target }
            else s with hs1
  have hs1ctrl : s1.ctrl = s.ctrl := by
    rw [hs1]
    split <;> simp [setObs_ctrl]
  have h1 : (s1.obs oid).targets = [] := by
    by_cases hhas : jsMapHas (s.obs oid).targets target = true
    · rw [hs1, if_pos hhas]
      rw [if_pos hhas] at h
      simpa [setObs_obs] using h
    · rw [hs1, if_neg hhas]
      rwa [if_neg hhas] at h
  have hq : (s1.obs oid).quedEntries = (s.obs oid).quedEntries := by
    rw [hs1]
    split <;> simp [setObs_obs]
  rw [if_pos (by rw [h1]; rfl)]
  refine ⟨by simp [observerDisconnect, setObs_obs], ?_, ?_⟩
  · intro hmem
    have hobs : (observerDisconnect ms s1 oid).ctrl.observers =
        s1.ctrl.observers.erase oid := by
      simp [observerDisconnect, ctrlDisconnect_observers, setObs_ctrl]
    rw [hobs, hs1ctrl] at hmem
    exact ((hnd.mem_erase_iff).mp hmem).1 rfl
  · calc ((observerDisconnect ms s1 oid).obs oid).quedEntries
        = (s1.obs oid).quedEntries := by simp [observerDisconnect, setObs_obs]
      _ = (s.obs oid).quedEntries := hq

/-- Witness for the amended C2 theorem on the concrete one-observer
system. -/
theorem c2_unobserve_empty_disconnects_witness :
    ((unobserveStep true c2System 0 5).obs 0).targets = [] ∧
    0 ∉ (unobserveStep true c2System 0 5).ctrl.observers ∧
    ((unobserveStep true c2System 0 5).obs 0).quedEntries = (c2System.obs 0).quedEntries :=
  c2_unobserve_empty_disconnects true c2System 0 5 (by decide) (by decide)
